import Mathlib

/-!
Verification of the Trading-FAIT streaming aggregator.

The aggregator is the `handleMessage` reducer of the frontend page
(frontend/app/page.tsx, newer revision): it folds WebSocket events into
display state (report, trade recommendation, chart symbol, price levels).
This file embeds that reducer as a pure Lean function over an explicit
state record and proves the spec's claims about it.  JavaScript numbers
carry no arithmetic here (values are only moved around and compared for
truthiness), so prices are modelled as `Int` with truthiness `≠ 0`;
JS string `length` and `includes` are modelled on `List Char`.  The
wall-clock timestamp `Date.now()` used for chat-entry ids is passed in
as an explicit `now : Nat` argument.
-/

/-- JS substring test helper: does the second list start with the first? -/
def leadsWith : List Char → List Char → Bool
  | [], _ => true
  | _ :: _, [] => false
  | a :: as, b :: bs => a == b && leadsWith as bs

/-- JS `String.prototype.includes`: `pat` occurs contiguously in the list. -/
def containsSub (pat : List Char) : List Char → Bool
  | [] => leadsWith pat []
  | c :: t => leadsWith pat (c :: t) || containsSub pat t

/-- `strContains s pat` models `s.includes(pat)` in JavaScript. -/
def strContains (s pat : String) : Bool :=
  containsSub pat.toList s.toList

/-- `msg.content.length > 300` — the minimum-length gate for report-shaped
content. -/
def hasSubstantialContent (c : String) : Bool :=
  decide (300 < c.length)

/-- `content.includes("#") || content.includes("---") || content.includes("•")`
— the structural-marker gate for report-shaped content. -/
def hasReportStructure (c : String) : Bool :=
  strContains c "#" || strContains c "---" || strContains c "•"

/-- `entry: number | {min, max}` of a trade recommendation. -/
inductive Entry where
  | single (price : Int)
  | range (min max : Int)
deriving DecidableEq

/-- `takeProfit: number | number[]` of a trade recommendation. -/
inductive TakeProfit where
  | one (price : Int)
  | many (prices : List Int)
deriving DecidableEq

/-- The `trade_recommendation` payload (lib/types.ts shape as used by the
reducer).  The `symbol` field is always present on the typed record, which
is what the `"symbol" in msg.data` guard checks. -/
structure TradeRecommendation where
  symbol : String
  direction : String
  entry : Entry
  stopLoss : Int
  takeProfit : TakeProfit
  riskReward : String
  confidence : Option String
  validity : Option String
  reasoning : Option String
deriving DecidableEq

/-- Chart overlay levels (`ChartPriceLevels`). -/
structure ChartPriceLevels where
  entries : List Int
  stopLoss : Int
  takeProfits : List Int
deriving DecidableEq

/-- The `chart_config` payload: `{ symbol, priceLevels? }`. -/
structure ChartCfg where
  symbol : String
  priceLevels : Option ChartPriceLevels
deriving DecidableEq

/-- One entry of the chat log (`ChatMessage`); the JS `id` string and
`timestamp` are both built from `Date.now()`, passed in as `now`. -/
structure ChatEntry where
  id : String
  kind : String
  content : String
  timestamp : Nat
  symbols : List String
  candidates : List String
deriving DecidableEq

/-- The inbound WebSocket messages dispatched by `handleMessage`,
one constructor per `msg.type`, carrying the fields the reducer reads.
Optional fields are `Option`s; `"symbol" in msg.data` holds exactly when
the typed payload is present. -/
inductive WsMessage where
  | queryStart (sessionId : Option String)
  | quickResponse (message : Option String) (symbols : List String)
  | clarificationNeeded (message : Option String) (candidates : List String)
  | agentStatus (agent : Option String) (active : Bool)
  | agentMessage (agent : Option String) (content : Option String)
  | tradeRecommendation (data : Option TradeRecommendation)
  | chartConfig (data : Option ChartCfg)
  | queryComplete
  | error (err : Option String)
deriving DecidableEq

/-- The component state touched by `handleMessage` (the `useState` cells
and the `sessionIdRef`). -/
structure AggState where
  isProcessing : Bool
  error : String
  agentStatuses : List (String × Bool)
  activeAgent : String
  report : String
  tradeRecommendation : Option TradeRecommendation
  currentSymbol : String
  priceLevels : Option ChartPriceLevels
  chatMessages : List ChatEntry
  sessionId : String
deriving DecidableEq

/-- Initial values of the `useState` cells. -/
def initState : AggState where
  isProcessing := false
  error := ""
  agentStatuses := []
  activeAgent := ""
  report := ""
  tradeRecommendation := none
  currentSymbol := "BTCUSD"
  priceLevels := none
  chatMessages := []
  sessionId := ""

/-- `{...prev, [agent]: active}` on the agent-status record: overwrite the
key if present, append it otherwise. -/
def setStatus : List (String × Bool) → String → Bool → List (String × Bool)
  | [], k, v => [(k, v)]
  | (k', v') :: rest, k, v =>
      if k' = k then (k, v) :: rest else (k', v') :: setStatus rest k v

/-- The `setReport` updater of the `agent_message` case, applied only to
content that passed the report-shape gate.  Mirrors the JS branch order:
ReportWriter always wins; the orchestrator wins when strictly longer;
otherwise content is taken only over an empty or sub-100-char report
(`!prev || prev.length < 100`). -/
def updateReport (agent : Option String) (content prev : String) : String :=
  if agent = some "ReportWriter" then content
  else if agent = some "MagenticOneOrchestrator" ∧ prev.length < content.length then
    content
  else if prev = "" ∨ prev.length < 100 then content
  else prev

/-- Overlay levels derived from a trade recommendation in the
`trade_recommendation` case: `entry` flattened to a list (a `{min,max}`
range is `[min, max].filter(Boolean)`, dropping zeroes), `takeProfit`
coerced to a list. -/
def derivePriceLevels (trade : TradeRecommendation) : ChartPriceLevels where
  entries :=
    match trade.entry with
    | Entry.single p => [p]
    | Entry.range mn mx => ([mn, mx].filter (fun x => decide (x ≠ 0)))
  stopLoss := trade.stopLoss
  takeProfits :=
    match trade.takeProfit with
    | TakeProfit.one p => [p]
    | TakeProfit.many ps => ps

/-- The WebSocket reducer `handleMessage` of frontend/app/page.tsx, as a
pure state transformer.  `now` stands for `Date.now()` at the moment the
message is handled (used only for chat-entry ids/timestamps). -/
def handleMessage (now : Nat) (msg : WsMessage) (s : AggState) : AggState :=
  match msg with
  | WsMessage.queryStart sessionId =>
      { s with
        isProcessing := true
        report := ""
        error := ""
        tradeRecommendation := none
        priceLevels := none
        sessionId :=
          match sessionId with
          | some sid => if sid = "" then s.sessionId else sid
          | none => s.sessionId }
  | WsMessage.quickResponse message symbols =>
      match message with
      | some m =>
          if m = "" then s
          else
            { s with
              chatMessages := s.chatMessages ++
                [{ id := "quick-" ++ toString now, kind := "quick_response",
                   content := m, timestamp := now, symbols := symbols,
                   candidates := [] }] }
      | none => s
  | WsMessage.clarificationNeeded message candidates =>
      match message with
      | some m =>
          if m = "" then s
          else
            { s with
              chatMessages := s.chatMessages ++
                [{ id := "clarify-" ++ toString now, kind := "clarification",
                   content := m, timestamp := now, symbols := [],
                   candidates := candidates }] }
      | none => s
  | WsMessage.agentStatus agent active =>
      match agent with
      | some a =>
          if a = "" then s
          else
            let s1 := { s with agentStatuses := setStatus s.agentStatuses a active }
            if active then { s1 with activeAgent := a } else s1
      | none => s
  | WsMessage.agentMessage agent content =>
      match content with
      | some c =>
          if c = "" then s
          else if hasSubstantialContent c && hasReportStructure c then
            { s with report := updateReport agent c s.report }
          else s
      | none => s
  | WsMessage.tradeRecommendation data =>
      match data with
      | some trade =>
          { s with
            tradeRecommendation := some trade
            currentSymbol :=
              if trade.symbol = "" then s.currentSymbol else trade.symbol
            priceLevels := some (derivePriceLevels trade) }
      | none => s
  | WsMessage.chartConfig data =>
      match data with
      | some cfg =>
          { s with
            currentSymbol := cfg.symbol
            priceLevels :=
              match cfg.priceLevels with
              | some p => some p
              | none => s.priceLevels }
      | none => s
  | WsMessage.queryComplete =>
      { s with isProcessing := false, activeAgent := "", agentStatuses := [] }
  | WsMessage.error err =>
      { s with
        error :=
          match err with
          | some m => if m = "" then "Unbekannter Fehler" else m
          | none => "Unbekannter Fehler"
        isProcessing := false
        activeAgent := "" }

/-- The Artifact set of the spec: the three derived client-facing outputs
(report, trade recommendation, chart configuration = symbol + overlays). -/
structure Artifacts where
  report : String
  tradeRecommendation : Option TradeRecommendation
  currentSymbol : String
  priceLevels : Option ChartPriceLevels
deriving DecidableEq

/-- Projection of the component state onto the Artifact set. -/
def artifactsOf (s : AggState) : Artifacts where
  report := s.report
  tradeRecommendation := s.tradeRecommendation
  currentSymbol := s.currentSymbol
  priceLevels := s.priceLevels

/-- Folding a timestamped message log through the reducer. -/
def runLog (log : List (Nat × WsMessage)) (s : AggState) : AggState :=
  log.foldl (fun st p => handleMessage p.1 p.2 st) s

/-- Reachability invariant of the held report: it is either empty or it
passed the report-shape gate (length over 300 with a structural marker). -/
def reportOk (r : String) : Prop :=
  r = "" ∨ (300 < r.length ∧ hasReportStructure r = true)

/-- Scenario content A: 150 characters, no structural marker. -/
def aContent : String := String.mk (List.replicate 150 'a')

/-- Scenario content B: 80 characters, sent by the report writer. -/
def bContent : String := String.mk (List.replicate 80 'b')

/-- Scenario content C: 600 characters with a heading marker. -/
def cContent : String := String.mk ('#' :: List.replicate 599 'c')

/-- A report-shaped content: 321 characters with a heading marker. -/
def wContent : String := String.mk ('#' :: List.replicate 320 'w')

/-- Scenario message A: a non-report-writer role. -/
def msgA : WsMessage := WsMessage.agentMessage (some "MarketAnalyst") (some aContent)

/-- Scenario message B: the report-writer role. -/
def msgB : WsMessage := WsMessage.agentMessage (some "ReportWriter") (some bContent)

/-- Scenario message C: the orchestration role. -/
def msgC : WsMessage := WsMessage.agentMessage (some "MagenticOneOrchestrator") (some cContent)

/-- A concrete trade recommendation used in counterexamples. -/
def trT : TradeRecommendation :=
  { symbol := "BTCUSD", direction := "LONG", entry := Entry.single 100,
    stopLoss := 90, takeProfit := TakeProfit.one 120, riskReward := "1:2",
    confidence := none, validity := none, reasoning := none }

/-- Payload price levels distinct from those derived from `trT`. -/
def cfgP : ChartPriceLevels := { entries := [1], stopLoss := 2, takeProfits := [3] }

/-- A chart-config payload carrying its own price levels. -/
def cfgE : ChartCfg := { symbol := "ETHUSD", priceLevels := some cfgP }

/-- First of two consecutive trade recommendations (with optional fields set). -/
def trD1 : TradeRecommendation :=
  { symbol := "MSFT", direction := "SHORT", entry := Entry.range 10 20,
    stopLoss := 25, takeProfit := TakeProfit.many [5, 3], riskReward := "1:3",
    confidence := some "hoch", validity := some "1 Woche",
    reasoning := some "Abwaertstrend" }

/-- Second of two consecutive trade recommendations. -/
def trD2 : TradeRecommendation :=
  { symbol := "AAPL", direction := "LONG", entry := Entry.single 180,
    stopLoss := 175, takeProfit := TakeProfit.one 195, riskReward := "1:2",
    confidence := none, validity := none, reasoning := none }

/-- A fixed message sequence, timestamped one way. -/
def logTimesA : List (Nat × WsMessage) :=
  [(0, WsMessage.queryStart (some "s1")),
   (3, WsMessage.quickResponse (some "Hallo") ["BTCUSD"]),
   (5, WsMessage.tradeRecommendation (some trT))]

/-- The same message sequence, timestamped differently. -/
def logTimesB : List (Nat × WsMessage) :=
  [(100, WsMessage.queryStart (some "s1")),
   (200, WsMessage.quickResponse (some "Hallo") ["BTCUSD"]),
   (300, WsMessage.tradeRecommendation (some trT))]

/-- Modelled from the spec: the backend consensus tracker
(backend/app/agents/termination.py) is not part of the available sources —
only the architecture notes mention it ("Termination: max_turns=20,
Mehrheits-Konsens (2/3)").  Spec rule: consensus is reached when `agree`
votes ≥ ceil(2/3 × engagedVoters) and engagedVoters ≥ 2; in natural-number
arithmetic, ceil(2·e/3) = (2·e + 2) / 3. -/
def consensusReached (agreeVotes engagedVoters : Nat) : Bool :=
  decide (2 ≤ engagedVoters) && decide ((2 * engagedVoters + 2) / 3 ≤ agreeVotes)

/-- An agent message whose content fails the minimum-length gate leaves the
whole state unchanged. -/
theorem agentMessage_short_noop (n : Nat) (ag : Option String) (x : String)
    (s : AggState) (h : hasSubstantialContent x = false) :
    handleMessage n (WsMessage.agentMessage ag (some x)) s = s := by
  by_cases hx : x = "" <;> simp [handleMessage, hx, h]

/-- The report updater either takes the new content or keeps the old report. -/
theorem updateReport_eq_or (ag : Option String) (c prev : String) :
    updateReport ag c prev = c ∨ updateReport ag c prev = prev := by
  unfold updateReport
  by_cases hw : ag = some "ReportWriter"
  · simp [hw]
  · by_cases ho : ag = some "MagenticOneOrchestrator" ∧ prev.length < c.length
    · simp [hw, ho]
    · by_cases hp : prev = "" ∨ prev.length < 100 <;> simp [hw, ho, hp]

/-- Applying the report updater twice with the same shaped content equals
applying it once. -/
theorem updateReport_idem (ag : Option String) (c prev : String)
    (h : 300 < c.length) :
    updateReport ag c (updateReport ag c prev) = updateReport ag c prev := by
  have hc100 : ¬ (c = "" ∨ c.length < 100) := by
    rintro (rfl | hlt)
    · simp at h
    · omega
  unfold updateReport
  by_cases hw : ag = some "ReportWriter"
  · simp [hw]
  · by_cases ho : ag = some "MagenticOneOrchestrator" ∧ prev.length < c.length
    · have hoc : ¬ (ag = some "MagenticOneOrchestrator" ∧ c.length < c.length) := by
        rintro ⟨_, hlt⟩; omega
      simp [hw, ho, hoc, hc100]
    · by_cases hp : prev = "" ∨ prev.length < 100
      · have hoc : ¬ (ag = some "MagenticOneOrchestrator" ∧ c.length < c.length) := by
          rintro ⟨_, hlt⟩; omega
        simp [hw, ho, hp, hoc, hc100]
      · simp [hw, ho, hp]

set_option maxRecDepth 10000 in
/-- C1: the claim as stated is false on the code: after A, B, C the held
report is C's content, not B's content, because B's 80-character message
fails the minimum-length gate that is checked before any role precedence. -/
theorem report_precedence_counterexample_C1 :
    (handleMessage 2 msgC (handleMessage 1 msgB
      (handleMessage 0 msgA initState))).report ≠ bContent ∧
    (handleMessage 2 msgC (handleMessage 1 msgB
      (handleMessage 0 msgA initState))).report = cContent := by
  constructor
  · decide
  · decide

/-- C1 (amended): for the event sequence of the claim — A from any role with
150 characters, B from the report writer with 80 characters, C from the
orchestration role with 600 characters and a structural marker — the held
report afterwards equals C's content: A and B fail the minimum-length gate
(over 300 characters) that applies before role precedence, and C, being
report-shaped and longer than the empty held report, is accepted. -/
theorem report_precedence_amended_C1 (agA : Option String) (a b c : String)
    (ha : a.length = 150) (hb : b.length = 80) (hc : c.length = 600)
    (hcs : hasReportStructure c = true) :
    (handleMessage 2 (WsMessage.agentMessage (some "MagenticOneOrchestrator") (some c))
      (handleMessage 1 (WsMessage.agentMessage (some "ReportWriter") (some b))
        (handleMessage 0 (WsMessage.agentMessage agA (some a)) initState))).report = c := by
  have hA : hasSubstantialContent a = false := by
    simp [hasSubstantialContent, ha]
  have hB : hasSubstantialContent b = false := by
    simp [hasSubstantialContent, hb]
  rw [agentMessage_short_noop 0 agA a initState hA,
      agentMessage_short_noop 1 (some "ReportWriter") b initState hB]
  have hcne : c ≠ "" := by
    intro h
    rw [h] at hc
    simp at hc
  have hsub : hasSubstantialContent c = true := by
    simp [hasSubstantialContent, hc]
  simp [handleMessage, hcne, hsub, hcs, updateReport, initState, hc]

set_option maxRecDepth 10000 in
/-- Witness for the amended C1 theorem at the concrete scenario contents. -/
theorem report_precedence_amended_C1_witness :
    (handleMessage 2 (WsMessage.agentMessage (some "MagenticOneOrchestrator") (some cContent))
      (handleMessage 1 (WsMessage.agentMessage (some "ReportWriter") (some bContent))
        (handleMessage 0 (WsMessage.agentMessage (some "MarketAnalyst") (some aContent))
          initState))).report = cContent :=
  report_precedence_amended_C1 (some "MarketAnalyst") aContent bContent cContent
    (by decide) (by decide) (by decide) (by decide)

/-- C2: among agent messages that pass the report-shape test, and on any
state whose held report satisfies the reachability invariant of C10 (empty
or at least 100 characters long), the precedence is: ReportWriter content
always replaces the held report; orchestrator content replaces it exactly
when strictly longer; content from any other role is accepted exactly when
no report is held yet. -/
theorem report_precedence_rule_C2 (n : Nat) (agent : Option String)
    (c : String) (s : AggState)
    (hlen : hasSubstantialContent c = true) (hstr : hasReportStructure c = true)
    (hinv : s.report = "" ∨ 100 ≤ s.report.length) :
    (handleMessage n (WsMessage.agentMessage agent (some c)) s).report =
      (if agent = some "ReportWriter" then c
       else if agent = some "MagenticOneOrchestrator" then
         (if s.report.length < c.length then c else s.report)
       else (if s.report = "" then c else s.report)) := by
  have hc : 300 < c.length := by
    simpa [hasSubstantialContent] using hlen
  have hcne : c ≠ "" := by
    intro h
    rw [h] at hc
    simp at hc
  have hstep :
      (handleMessage n (WsMessage.agentMessage agent (some c)) s).report =
        updateReport agent c s.report := by
    simp [handleMessage, hcne, hlen, hstr]
  rw [hstep]
  unfold updateReport
  by_cases hw : agent = some "ReportWriter"
  · simp [hw]
  · by_cases ho : agent = some "MagenticOneOrchestrator"
    · by_cases hlt : s.report.length < c.length
      · simp [hw, ho, hlt]
      · have hne : s.report ≠ "" := by
          intro h
          rw [h] at hlt
          simp at hlt
          omega
        have h100 : ¬ (s.report = "" ∨ s.report.length < 100) := by
          rcases hinv with h | h
          · exact absurd h hne
          · rintro (h' | h')
            · exact hne h'
            · omega
        simp [hw, ho, hlt, h100]
    · by_cases he : s.report = ""
      · simp [hw, ho, he]
      · have h100 : ¬ (s.report = "" ∨ s.report.length < 100) := by
          rcases hinv with h | h
          · exact absurd h he
          · rintro (h' | h')
            · exact he h'
            · omega
        have hoc : ¬ (agent = some "MagenticOneOrchestrator" ∧
            s.report.length < c.length) := by
          rintro ⟨h', _⟩
          exact ho h'
        have hge : ¬ s.report.length < 100 := by
          rcases hinv with h | h
          · exact absurd h he
          · omega
        simp [hw, ho, he, hoc, hge]

set_option maxRecDepth 10000 in
/-- Witness for C2 at a concrete report-shaped ReportWriter message. -/
theorem report_precedence_rule_C2_witness :
    (handleMessage 0 (WsMessage.agentMessage (some "ReportWriter")
      (some wContent)) initState).report = wContent := by
  have h := report_precedence_rule_C2 0 (some "ReportWriter") wContent initState
    (by decide) (by decide) (Or.inl rfl)
  simpa using h

/-- C3: an agent message whose content fails the minimum-length gate or
carries no structural marker leaves the held report unchanged (as does a
message with no content at all). -/
theorem chatter_ignored_C3 (n : Nat) (agent : Option String)
    (content : Option String) (s : AggState)
    (h : ∀ c, content = some c →
      hasSubstantialContent c = false ∨ hasReportStructure c = false) :
    (handleMessage n (WsMessage.agentMessage agent content) s).report =
      s.report := by
  cases content with
  | none => rfl
  | some c =>
      by_cases hc : c = ""
      · simp [handleMessage, hc]
      · rcases h c rfl with h' | h' <;> simp [handleMessage, hc, h']

/-- Witness for C3 at a concrete short message. -/
theorem chatter_ignored_C3_witness :
    (handleMessage 0 (WsMessage.agentMessage (some "ReportWriter")
      (some "# kurz")) initState).report = initState.report :=
  chatter_ignored_C3 0 (some "ReportWriter") (some "# kurz") initState
    (fun c hc => by
      injection hc with h
      subst h
      exact Or.inl (by decide))

/-- C4: a trade-recommendation event with a non-empty symbol replaces the
held trade recommendation wholesale with the event's data and sets the
chart's active symbol to the event's symbol; after two consecutive
trade-recommendation events only the second event's record is held, with no
field carried over from the first. -/
theorem trade_replacement_C4 (n n' : Nat) (s : AggState)
    (d d' : TradeRecommendation) (h : d.symbol ≠ "") :
    (handleMessage n (WsMessage.tradeRecommendation (some d))
        s).tradeRecommendation = some d ∧
    (handleMessage n (WsMessage.tradeRecommendation (some d))
        s).currentSymbol = d.symbol ∧
    (handleMessage n' (WsMessage.tradeRecommendation (some d))
        (handleMessage n (WsMessage.tradeRecommendation (some d'))
          s)).tradeRecommendation = some d := by
  refine ⟨rfl, ?_, rfl⟩
  simp [handleMessage, h]

/-- Witness for C4 at two concrete trade recommendations. -/
theorem trade_replacement_C4_witness :
    (handleMessage 1 (WsMessage.tradeRecommendation (some trD2))
        (handleMessage 0 (WsMessage.tradeRecommendation (some trD1))
          initState)).tradeRecommendation = some trD2 ∧
    (handleMessage 1 (WsMessage.tradeRecommendation (some trD2))
        initState).currentSymbol = "AAPL" :=
  ⟨(trade_replacement_C4 0 1 initState trD2 trD1 (by decide)).2.2,
   (trade_replacement_C4 1 0 initState trD2 trD1 (by decide)).2.1⟩

/-- C7: an error event records the error text (with a fallback for a
missing or empty message), clears the processing flag and the active-agent
indicator, and leaves the report, the trade recommendation, the active
symbol and the price levels untouched. -/
theorem error_frame_C7 (n : Nat) (err : Option String) (s : AggState) :
    (handleMessage n (WsMessage.error err) s).report = s.report ∧
    (handleMessage n (WsMessage.error err) s).tradeRecommendation =
      s.tradeRecommendation ∧
    (handleMessage n (WsMessage.error err) s).currentSymbol =
      s.currentSymbol ∧
    (handleMessage n (WsMessage.error err) s).priceLevels = s.priceLevels ∧
    (handleMessage n (WsMessage.error err) s).isProcessing = false ∧
    (handleMessage n (WsMessage.error err) s).activeAgent = "" ∧
    (handleMessage n (WsMessage.error err) s).error =
      (match err with
       | some m => if m = "" then "Unbekannter Fehler" else m
       | none => "Unbekannter Fehler") :=
  ⟨rfl, rfl, rfl, rfl, rfl, rfl, rfl⟩

/-- C8: the claim as stated is false on the code: with a trade
recommendation held, a chart-config event carrying its own price levels
overwrites the overlays with the payload's levels, not with the levels
derived from the held trade recommendation. -/
theorem chart_config_counterexample_C8 :
    (handleMessage 1 (WsMessage.chartConfig (some cfgE))
        (handleMessage 0 (WsMessage.tradeRecommendation (some trT))
          initState)).tradeRecommendation = some trT ∧
    (handleMessage 1 (WsMessage.chartConfig (some cfgE))
        (handleMessage 0 (WsMessage.tradeRecommendation (some trT))
          initState)).priceLevels = some cfgP ∧
    some cfgP ≠ some (derivePriceLevels trT) := by
  refine ⟨rfl, rfl, ?_⟩
  decide

/-- C8 (amended): a chart-config event whose data contains a symbol sets
the chart's active symbol to the payload's symbol and, when the payload
carries price levels, replaces the overlays with exactly those payload
levels; when the payload carries none, the overlays are left unchanged
(in particular, any levels previously derived from the held trade
recommendation remain). The held trade recommendation and report are
untouched. -/
theorem chart_config_amended_C8 (n : Nat) (cfg : ChartCfg) (s : AggState) :
    (handleMessage n (WsMessage.chartConfig (some cfg))
        s).currentSymbol = cfg.symbol ∧
    (handleMessage n (WsMessage.chartConfig (some cfg))
        s).priceLevels =
      (match cfg.priceLevels with
       | some p => some p
       | none => s.priceLevels) ∧
    (handleMessage n (WsMessage.chartConfig (some cfg))
        s).tradeRecommendation = s.tradeRecommendation ∧
    (handleMessage n (WsMessage.chartConfig (some cfg))
        s).report = s.report :=
  ⟨rfl, rfl, rfl, rfl⟩

/-- C5: applying any event twice in immediate succession (at any wall-clock
times) leaves the artifact set — report, trade recommendation, active
symbol, price levels — equal to applying it once: duplicates are idempotent
no-ops on the artifacts. -/
theorem duplicate_idempotent_C5 (n n' : Nat) (m : WsMessage) (s : AggState) :
    artifactsOf (handleMessage n' m (handleMessage n m s)) =
      artifactsOf (handleMessage n m s) := by
  cases m with
  | queryStart sid => rfl
  | quickResponse message symbols =>
      cases message with
      | none => rfl
      | some msg =>
          by_cases h : msg = "" <;> simp [handleMessage, artifactsOf, h]
  | clarificationNeeded message candidates =>
      cases message with
      | none => rfl
      | some msg =>
          by_cases h : msg = "" <;> simp [handleMessage, artifactsOf, h]
  | agentStatus agent active =>
      cases agent with
      | none => rfl
      | some a =>
          by_cases h : a = ""
          · simp [handleMessage, h]
          · cases active <;> simp [handleMessage, artifactsOf, h]
  | agentMessage agent content =>
      cases content with
      | none => rfl
      | some c =>
          by_cases hc : c = ""
          · simp [handleMessage, hc]
          · by_cases hg : (hasSubstantialContent c && hasReportStructure c) = true
            · have hlen : 300 < c.length := by
                have := (Bool.and_eq_true _ _).mp hg
                simpa [hasSubstantialContent] using this.1
              simp [handleMessage, hc, hg, artifactsOf,
                updateReport_idem agent c s.report hlen]
            · simp [handleMessage, hc, hg]
  | tradeRecommendation data =>
      cases data with
      | none => rfl
      | some d =>
          by_cases h : d.symbol = "" <;> simp [handleMessage, artifactsOf, h]
  | chartConfig data =>
      cases data with
      | none => rfl
      | some cfg =>
          cases hp : cfg.priceLevels <;> simp [handleMessage, artifactsOf, hp]
  | queryComplete => rfl
  | error err => rfl

/-- One reducer step sends artifact-equal states to artifact-equal states,
whatever wall-clock times are supplied: the artifacts after a step depend
only on the message and the artifacts before it. -/
theorem artifacts_step_congr (n₁ n₂ : Nat) (m : WsMessage) (s₁ s₂ : AggState)
    (h : artifactsOf s₁ = artifactsOf s₂) :
    artifactsOf (handleMessage n₁ m s₁) = artifactsOf (handleMessage n₂ m s₂) := by
  have hr : s₁.report = s₂.report := congrArg Artifacts.report h
  have ht : s₁.tradeRecommendation = s₂.tradeRecommendation :=
    congrArg Artifacts.tradeRecommendation h
  have hc : s₁.currentSymbol = s₂.currentSymbol :=
    congrArg Artifacts.currentSymbol h
  have hp : s₁.priceLevels = s₂.priceLevels := congrArg Artifacts.priceLevels h
  cases m with
  | queryStart sid => simp [handleMessage, artifactsOf, hc]
  | quickResponse message symbols =>
      cases message with
      | none => simpa [handleMessage, artifactsOf] using h
      | some msg =>
          by_cases hm : msg = "" <;>
            simp [handleMessage, artifactsOf, hm, hr, ht, hc, hp]
  | clarificationNeeded message candidates =>
      cases message with
      | none => simpa [handleMessage, artifactsOf] using h
      | some msg =>
          by_cases hm : msg = "" <;>
            simp [handleMessage, artifactsOf, hm, hr, ht, hc, hp]
  | agentStatus agent active =>
      cases agent with
      | none => simpa [handleMessage, artifactsOf] using h
      | some a =>
          by_cases ha : a = ""
          · simpa [handleMessage, artifactsOf, ha] using h
          · cases active <;>
              simp [handleMessage, artifactsOf, ha, hr, ht, hc, hp]
  | agentMessage agent content =>
      cases content with
      | none => simpa [handleMessage, artifactsOf] using h
      | some c =>
          by_cases hce : c = ""
          · simpa [handleMessage, artifactsOf, hce] using h
          · by_cases hg : (hasSubstantialContent c && hasReportStructure c) = true <;>
              simp [handleMessage, artifactsOf, hce, hg, hr, ht, hc, hp]
  | tradeRecommendation data =>
      cases data with
      | none => simpa [handleMessage, artifactsOf] using h
      | some d =>
          by_cases hd : d.symbol = "" <;>
            simp [handleMessage, artifactsOf, hd, hr, ht, hc, hp]
  | chartConfig data =>
      cases data with
      | none => simpa [handleMessage, artifactsOf] using h
      | some cfg =>
          cases hcfg : cfg.priceLevels <;>
            simp [handleMessage, artifactsOf, hcfg, hr, ht, hc, hp]
  | queryComplete => simp [handleMessage, artifactsOf, hr, ht, hc, hp]
  | error err => simp [handleMessage, artifactsOf, hr, ht, hc, hp]

/-- Folding two logs that carry the same message sequence (under possibly
different wall-clock times) from artifact-equal states yields artifact-equal
states. -/
theorem runLog_artifacts_congr (log₁ : List (Nat × WsMessage)) :
    ∀ (log₂ : List (Nat × WsMessage)) (s₁ s₂ : AggState),
      log₁.map Prod.snd = log₂.map Prod.snd →
      artifactsOf s₁ = artifactsOf s₂ →
      artifactsOf (runLog log₁ s₁) = artifactsOf (runLog log₂ s₂) := by
  induction log₁ with
  | nil =>
      intro log₂ s₁ s₂ hmap hs
      cases log₂ with
      | nil => exact hs
      | cons p t => simp at hmap
  | cons p t ih =>
      intro log₂ s₁ s₂ hmap hs
      cases log₂ with
      | nil => simp at hmap
      | cons q u =>
          simp only [List.map_cons, List.cons.injEq] at hmap
          have hstep : artifactsOf (handleMessage p.1 p.2 s₁) =
              artifactsOf (handleMessage q.1 q.2 s₂) := by
            rw [hmap.1]
            exact artifacts_step_congr p.1 q.1 q.2 s₁ s₂ hs
          exact ih u (handleMessage p.1 p.2 s₁) (handleMessage q.1 q.2 s₂)
            hmap.2 hstep

/-- C6: the artifact set produced by folding a message log through the
reducer from the initial state is a deterministic function of the message
sequence alone: two runs over logs carrying the same messages (regardless
of the wall-clock times used for chat-entry ids) yield identical report,
trade recommendation and chart configuration. -/
theorem replay_deterministic_C6 (log₁ log₂ : List (Nat × WsMessage))
    (h : log₁.map Prod.snd = log₂.map Prod.snd) :
    artifactsOf (runLog log₁ initState) = artifactsOf (runLog log₂ initState) :=
  runLog_artifacts_congr log₁ log₂ initState initState h rfl

/-- Witness for C6: the fixed message sequence replayed under two different
timestamp assignments yields the same artifacts. -/
theorem replay_deterministic_C6_witness :
    artifactsOf (runLog logTimesA initState) =
      artifactsOf (runLog logTimesB initState) :=
  replay_deterministic_C6 logTimesA logTimesB rfl

/-- C9: consensus is reached exactly when the agree votes reach the
rational ceiling ceil(2/3 × engagedVoters) and at least two voters are
engaged; in particular 2 agree votes among 3 engaged voters reach
consensus, while a 1/1 split among 2 engaged voters does not. -/
theorem consensus_rule_C9 :
    (∀ agreeVotes engagedVoters : ℕ,
      consensusReached agreeVotes engagedVoters = true ↔
        (2 ≤ engagedVoters ∧
          ⌈(2 * (engagedVoters : ℚ)) / 3⌉ ≤ (agreeVotes : ℤ))) ∧
    consensusReached 2 3 = true ∧
    consensusReached 1 2 = false := by
  refine ⟨?_, by decide, by decide⟩
  intro a e
  have key : (2 * e + 2) / 3 ≤ a ↔ ⌈(2 * (e : ℚ)) / 3⌉ ≤ (a : ℤ) := by
    rw [Int.ceil_le]
    rw [div_le_iff₀ (by norm_num : (0 : ℚ) < 3)]
    push_cast
    constructor
    · intro h
      have h' : 2 * e ≤ a * 3 := by omega
      exact_mod_cast h'
    · intro h
      have h' : 2 * e ≤ a * 3 := by exact_mod_cast h
      omega
  simp only [consensusReached, Bool.and_eq_true, decide_eq_true_eq]
  exact and_congr_right fun _ => key

/-- C10: every event handler keeps the held-report invariant — the report
is empty or over 300 characters with a structural marker; under it, the
"previous report shorter than 100 characters" acceptance branch coincides
with the no-report-held case; and a query-start event restores the
empty-report state. -/
theorem report_invariant_C10 (n : Nat) (m : WsMessage) (s : AggState)
    (hs : reportOk s.report) :
    reportOk (handleMessage n m s).report ∧
    (s.report.length < 100 ↔ s.report = "") ∧
    (∀ sid : Option String,
      (handleMessage n (WsMessage.queryStart sid) s).report = "") := by
  refine ⟨?_, ?_, fun _ => rfl⟩
  · cases m with
    | queryStart sid => exact Or.inl rfl
    | quickResponse message symbols =>
        cases message with
        | none => exact hs
        | some msg =>
            by_cases h : msg = "" <;> simp [handleMessage, h] <;> exact hs
    | clarificationNeeded message candidates =>
        cases message with
        | none => exact hs
        | some msg =>
            by_cases h : msg = "" <;> simp [handleMessage, h] <;> exact hs
    | agentStatus agent active =>
        cases agent with
        | none => exact hs
        | some a =>
            by_cases h : a = ""
            · simpa [handleMessage, h] using hs
            · cases active <;> simpa [handleMessage, h] using hs
    | agentMessage agent content =>
        cases content with
        | none => exact hs
        | some c =>
            by_cases hc : c = ""
            · simpa [handleMessage, hc] using hs
            · by_cases hg : (hasSubstantialContent c && hasReportStructure c) = true
              · have hparts := (Bool.and_eq_true _ _).mp hg
                have hlen : 300 < c.length := by
                  simpa [hasSubstantialContent] using hparts.1
                have hrep :
                    (handleMessage n (WsMessage.agentMessage agent (some c))
                      s).report = updateReport agent c s.report := by
                  simp [handleMessage, hc, hg]
                rw [hrep]
                rcases updateReport_eq_or agent c s.report with h' | h'
                · rw [h']
                  exact Or.inr ⟨hlen, hparts.2⟩
                · rw [h']
                  exact hs
              · simpa [handleMessage, hc, hg] using hs
    | tradeRecommendation data =>
        cases data with
        | none => exact hs
        | some d => simpa [handleMessage] using hs
    | chartConfig data =>
        cases data with
        | none => exact hs
        | some cfg => simpa [handleMessage] using hs
    | queryComplete => exact hs
    | error err => exact hs
  · rcases hs with h | ⟨h300, _⟩
    · simp [h]
    · constructor
      · intro h100
        omega
      · intro he
        rw [he] at h300
        simp at h300

set_option maxRecDepth 10000 in
/-- Witness for C10: invariant preserved from the initial state by a
report-shaped writer message, the branch coincidence at the initial state,
and the query-start reset. -/
theorem report_invariant_C10_witness :
    reportOk (handleMessage 0 (WsMessage.agentMessage (some "ReportWriter")
      (some wContent)) initState).report ∧
    (initState.report.length < 100 ↔ initState.report = "") ∧
    (handleMessage 0 (WsMessage.queryStart (some "sitzung-1"))
      initState).report = "" :=
  ⟨(report_invariant_C10 0
      (WsMessage.agentMessage (some "ReportWriter") (some wContent))
      initState (Or.inl rfl)).1,
   (report_invariant_C10 0
      (WsMessage.agentMessage (some "ReportWriter") (some wContent))
      initState (Or.inl rfl)).2.1,
   (report_invariant_C10 0
      (WsMessage.agentMessage (some "ReportWriter") (some wContent))
      initState (Or.inl rfl)).2.2 (some "sitzung-1")⟩
